import Mathlib

/-!
Verification of the concurrent resource-provisioning engine of the
ghas-lab-builder CLI (Go), via a shallow embedding in Lean 4.

The embedding follows the Go source files:
  internal/services/lab_service.go   (worker pool, per-identity provisioning,
                                      result aggregation, destroy path)
  internal/github/orgs.go            (CreateOrg naming)
  internal/github/repos.go           (createRepoFromTemplateWithRetry)
  internal/github/users.go           (ValidateAndFilterUsers)
  the custom round tripper file      (NewGithubStyleTransport token cache)

Effectful Go code is modelled by explicit state passing: remote-API outcomes
are environment functions (String -> Except String _), the token cache is an
association list threaded through the auth-provider function, and the worker
pool is a per-worker sequential loop plus an arbitrary assignment of work
units to workers. Wall-clock time is an explicit Nat parameter.
-/

namespace GhasLabBuilder

/-- Constant `config.OrganizationType` from internal/config/constants.go. -/
def organizationType : String := "Organization"

/-- Constant `config.EnterpriseType` from internal/config/constants.go. -/
def enterpriseType : String := "Enterprise"

/-- Organization record (fields used by the engine): GraphQL `organization`
payload decoded in orgs.go. -/
structure Organization where
  ID : String := ""
  Login : String := ""
  Name : String := ""
deriving DecidableEq

/-- Repository record (fields used by the engine) from repos.go. -/
structure Repository where
  FullName : String := ""
  HTMLURL : String := ""
deriving DecidableEq

/-- One entry of the template-repository manifest (util.RepoConfig). -/
structure RepoConfig where
  Template : String
  IncludeAllBranches : Bool
deriving DecidableEq

/-- Per-repository sub-result (services.RepoReport in lab_service.go). -/
structure RepoReport where
  Name : String
  Status : String
  Error : String := ""
  URL : String := ""
deriving DecidableEq

/-- Per-identity outcome record (services.ProvisionResult in lab_service.go).
The Go struct also carries a CompletedAt wall-clock timestamp, which the
claims do not constrain; it is omitted from the embedding. -/
structure ProvisionResult where
  User : String
  OrgName : String := ""
  Status : String
  Error : String := ""
  Repos : List RepoReport
deriving DecidableEq

/-- Organization name built by `Enterprise.CreateOrg` (orgs.go line 18):
`"ghas-labs-" + ctx.Value(config.LabDateKey).(string) + "-" + user`. -/
def createOrgName (labDate user : String) : String :=
  "ghas-labs-" ++ labDate ++ "-" ++ user

/-- Organization name built by the delete path
(`DestroyOrgResourcesWithReport`, lab_service.go line 567):
`"ghas-labs-" + labDate + "-" + user`. -/
def destroyOrgName (labDate user : String) : String :=
  "ghas-labs-" ++ labDate ++ "-" ++ user

/-- Outcome of the per-username HTTP check inside `ValidateAndFilterUsers`
(users.go lines 69-94): the request either errors, or yields a status code;
200 marks the user valid, 404 and any other status mark it invalid. -/
inductive UserCheck where
  | okStatus
  | notFound
  | otherStatus (code : Nat)
  | reqError (msg : String)
deriving DecidableEq

/-- A username counts as valid exactly when its check returned HTTP 200
(users.go line 91-93). -/
def checkValid : UserCheck → Bool
  | .okStatus => true
  | _ => false

/-- Result pair of `ValidateAndFilterUsers` (users.go). -/
structure UserValidationResult where
  ValidUsers : List String
  InvalidUsers : List String
deriving DecidableEq

/-- Shallow embedding of `ValidateAndFilterUsers` (users.go lines 22-141).
The Go code validates usernames concurrently, collects a `validationMap`,
rebuilds `validUsers` in the original input order by filtering the input
list through the map, and errors iff the input was non-empty and no
username validated. The arrival order of `invalidUsers` is nondeterministic
in Go; the embedding fixes it to input order, which no claim constrains. -/
def validateAndFilterUsers (check : String → UserCheck) (usernames : List String) :
    Except String UserValidationResult :=
  if usernames = [] then
    .ok { ValidUsers := [], InvalidUsers := [] }
  else
    let validUsers := usernames.filter (fun u => checkValid (check u))
    let invalidUsers := usernames.filter (fun u => !(checkValid (check u)))
    if validUsers = [] then
      .error "no valid users found after validation"
    else
      .ok { ValidUsers := validUsers, InvalidUsers := invalidUsers }

/-- Cached token entry (struct cachedToken in the round-tripper file):
`{ token string; expires time.Time }`.  Time is modelled in seconds. -/
structure CachedToken where
  token : String
  expires : Nat
deriving DecidableEq

/-- State of the scope-keyed token cache (struct tokenCache): a map from
cache key to cached token, embedded as an association list. -/
structure TokenCacheState where
  tokens : List (String × CachedToken)
deriving DecidableEq

/-- Map read `globalTokenCache.tokens[cacheKey]`. -/
def lookupToken (st : TokenCacheState) (key : String) : Option CachedToken :=
  st.tokens.lookup key

/-- Map write `globalTokenCache.tokens[cacheKey] = cachedToken{...}`:
the entry under `key` is replaced. -/
def storeToken (st : TokenCacheState) (key : String) (entry : CachedToken) :
    TokenCacheState :=
  { tokens := (key, entry) :: st.tokens.filter (fun p => p.fst != key) }

/-- Cache lifetime used by the transport: 55 minutes
(`time.Now().Add(55 * time.Minute)`), in seconds. -/
def cacheTTL : Nat := 55 * 60

/-- Inputs of the auth-provider closure built by `NewGithubStyleTransport`:
the context values (PAT token, organization name for scoping) and the
outcomes of the two token-service exchange calls, given as functions of
their argument. -/
structure AuthConfig where
  pat : Option String
  targetType : String
  orgInCtx : Option String
  exchangeForOrg : String → Except String String
  exchangeForType : String → Except String String

/-- Cache-key computation of the auth provider: the target type, refined to
`targetType ++ ":" ++ orgName` when the target type is Organization and a
non-empty organization name is in context. -/
def cacheKey (cfg : AuthConfig) : String :=
  if cfg.targetType = organizationType then
    match cfg.orgInCtx with
    | some orgName =>
        if orgName != "" then cfg.targetType ++ ":" ++ orgName else cfg.targetType
    | none => cfg.targetType
  else cfg.targetType

/-- Exchange-call selection of the auth provider: for Organization targets
with a non-empty organization in context, `GetInstallationTokenForOrg` is
called; otherwise `GetInstallationToken(targetType)`. -/
def doExchange (cfg : AuthConfig) : Except String String :=
  if cfg.targetType = organizationType then
    match cfg.orgInCtx with
    | some orgName =>
        if orgName != "" then cfg.exchangeForOrg orgName
        else cfg.exchangeForType cfg.targetType
    | none => cfg.exchangeForType cfg.targetType
  else cfg.exchangeForType cfg.targetType

/-- Observable outcome of one auth-provider call: the Authorization header
value or the propagated error, the cache state after the call, and a ghost
flag marking whether the exchange path (the code constructing
`auth.NewTokenService` and calling it) was taken. -/
structure AuthOutcome where
  value : Except String String
  state : TokenCacheState
  didExchange : Bool

/-- Exchange-and-cache tail of the auth provider: perform the exchange; on
failure propagate the error and leave the cache untouched; on success cache
the token under the scope key with expiry now + 55 minutes and return it as
a Bearer credential. -/
def exchangeAndCache (cfg : AuthConfig) (st : TokenCacheState) (now : Nat) :
    AuthOutcome :=
  match doExchange cfg with
  | .error e => ⟨.error e, st, true⟩
  | .ok tokenStr =>
      ⟨.ok ("Bearer " ++ tokenStr),
       storeToken st (cacheKey cfg) { token := tokenStr, expires := now + cacheTTL },
       true⟩

/-- App-authentication path of the auth provider: consult the cache under
the scope key; a live entry (`time.Now().Before(cached.expires)`, that is
now < expires) is returned directly; otherwise exchange and cache.  The Go
code re-checks the entry after upgrading from the read lock to the write
lock; in this sequential embedding both checks observe the same state and
clock, so they collapse into one. -/
def appAuth (cfg : AuthConfig) (st : TokenCacheState) (now : Nat) : AuthOutcome :=
  match lookupToken st (cacheKey cfg) with
  | some cached =>
      if now < cached.expires then ⟨.ok ("Bearer " ++ cached.token), st, false⟩
      else exchangeAndCache cfg st now
  | none => exchangeAndCache cfg st now

/-- The auth-provider closure of `NewGithubStyleTransport`: a present and
non-empty PAT token short-circuits to `"Bearer " ++ pat` without touching
the cache; otherwise GitHub-App authentication via the cache. -/
def authProvider (cfg : AuthConfig) (st : TokenCacheState) (now : Nat) : AuthOutcome :=
  match cfg.pat with
  | some t =>
      if t != "" then ⟨.ok ("Bearer " ++ t), st, false⟩
      else appAuth cfg st now
  | none => appAuth cfg st now

/-- The PAT short-circuit is inactive: no token in context, or an empty one
(`ok && token != ""` fails). -/
def patInactive (cfg : AuthConfig) : Prop :=
  cfg.pat = none ∨ cfg.pat = some ""

/-- Concrete auth configuration for witnesses: app auth, Organization
target scoped to one organization, exchanges succeed. -/
def wcCfg : AuthConfig :=
  { pat := none
  , targetType := organizationType
  , orgInCtx := some "ghas-labs-2025-01-01-alice"
  , exchangeForOrg := fun o => .ok ("tok-" ++ o)
  , exchangeForType := fun t => .ok ("tok-" ++ t) }

/-- Concrete cache state for witnesses: one entry, expired at time 100. -/
def wcState : TokenCacheState :=
  { tokens := [("Organization:ghas-labs-2025-01-01-alice",
                { token := "old", expires := 100 })] }

/-- Concrete auth configuration for witnesses: app auth whose exchange
fails. -/
def wcFailCfg : AuthConfig :=
  { pat := none
  , targetType := enterpriseType
  , orgInCtx := none
  , exchangeForOrg := fun _ => .error "exchange down"
  , exchangeForType := fun _ => .error "exchange down" }

/-- Concrete auth configuration for witnesses: a non-empty PAT present. -/
def wcPatCfg : AuthConfig :=
  { pat := some "pat-token"
  , targetType := enterpriseType
  , orgInCtx := none
  , exchangeForOrg := fun _ => .error "unused"
  , exchangeForType := fun _ => .error "unused" }

/-- The rate-limit phrase recognized by the retry wrapper
(repos.go line 84). -/
def rateLimitPhrase : String := "Resource not accessible by integration"

/-- Embedding of `strings.Contains(msg, phrase)`: the phrase occurs as a
contiguous substring of the message. -/
def containsPhrase (phrase msg : String) : Bool :=
  decide (List.IsInfix phrase.toList msg.toList)

/-- One HTTP response observed by `createRepoFromTemplateWithRetry`
(repos.go lines 66-105): the status code, the `message` field when the body
parses as an error object (none when `json.Unmarshal` fails), the raw body
text used in error strings, and the body parsed as a Repository when the
creation succeeded (none when that parse fails). -/
structure RepoResponse where
  status : Nat
  errMessage : Option String
  bodyText : String
  repoParse : Option Repository
deriving DecidableEq

/-- Transient signature of the retry wrapper (repos.go lines 80-92): status
422 and an error body whose message contains the rate-limit phrase. -/
def isTransientResponse (r : RepoResponse) : Bool :=
  r.status == 422 &&
    (match r.errMessage with
     | some m => containsPhrase rateLimitPhrase m
     | none => false)

/-- State of the retry wrapper: attempting with the current retryCount
argument of `createRepoFromTemplateWithRetry`, or a terminal outcome. -/
inductive RetryOutcome where
  | attempting (retryCount : Nat)
  | created (repo : Repository)
  | failed (msg : String)
deriving DecidableEq

/-- Error string of the non-transient failure branch (repos.go line 97). -/
def repoCreateErrorMsg (r : RepoResponse) : String :=
  "failed to create repository from template with status " ++
    toString r.status ++ ": " ++ r.bodyText

/-- Error string when a 201 body fails to parse (repos.go line 104). -/
def repoParseErrorMsg : String := "failed to parse response"

/-- One iteration of `createRepoFromTemplateWithRetry` (repos.go lines
23-112), driven by the sequence of responses the remote returns to the
successive attempts (attempt n, i.e. retryCount n, receives responses n):
201 terminates with the parsed repository (or a parse error); a transient
response re-enters attempting with retryCount + 1 (the recursive self-call
on line 91); any other response terminates with the creation error. -/
def retryStep (responses : Nat → RepoResponse) : RetryOutcome → RetryOutcome
  | .attempting n =>
      let r := responses n
      if r.status = 201 then
        match r.repoParse with
        | some repo => .created repo
        | none => .failed repoParseErrorMsg
      else if isTransientResponse r then .attempting (n + 1)
      else .failed (repoCreateErrorMsg r)
  | .created repo => .created repo
  | .failed msg => .failed msg

/-- Seconds slept by one iteration of the retry wrapper: the fixed
`time.Sleep(60 * time.Second)` before the recursive call, taken exactly on
the transient branch. -/
def retryStepDelay (responses : Nat → RepoResponse) : RetryOutcome → Nat
  | .attempting n =>
      let r := responses n
      if r.status = 201 then 0
      else if isTransientResponse r then 60
      else 0
  | .created _ => 0
  | .failed _ => 0

/-- Environment of the per-identity provisioning procedure
(`ProvisionOrgResources`, lab_service.go lines 25-131): the context values
and the outcomes of the remote operations, as functions of their
arguments. `createRepoFromTemplate` is the final outcome of the
retry-wrapped repository creation for a given organization and template. -/
structure ProvisionEnv where
  pat : Option String
  facilitators : List String
  createOrg : String → Except String Organization
  installApp : String → Except String Unit
  addOrgMember : String → String → Except String Unit
  createRepoFromTemplate : String → RepoConfig → Except String Repository
  templateRepos : List RepoConfig

/-- Per-template sub-result construction (lab_service.go lines 101-122):
each template gets an independent RepoReport, failed with the error string
or successful with the repository URL. -/
def repoReportFor (env : ProvisionEnv) (orgName : String) (rc : RepoConfig) :
    RepoReport :=
  match env.createRepoFromTemplate orgName rc with
  | .error e => { Name := rc.Template, Status := "failed", Error := e }
  | .ok repo => { Name := rc.Template, Status := "success", URL := repo.HTMLURL }

/-- Body of the worker loop for one dequeued identity (lab_service.go lines
39-127).  Organization-creation failure and app-installation failure each
produce a failed record immediately (`continue` after sending it); app
installation is skipped when a PAT token is present in context
(`ctx.Value(config.TokenKey) == nil` is the nil check on line 61); the
GrantAdmin step (lines 77-96) only logs on failure and never alters the
record, so it does not appear in this value-level embedding; otherwise one
RepoReport per configured template is accumulated in order and the record
is sent with status success. -/
def provisionOneUser (env : ProvisionEnv) (user : String) : ProvisionResult :=
  match env.createOrg user with
  | .error e =>
      { User := user, Status := "failed", Repos := [],
        Error := "Failed to create organization: " ++ e }
  | .ok org =>
      match (if env.pat.isSome then Except.ok () else env.installApp org.Login) with
      | .error e =>
          { User := user, OrgName := org.Login, Status := "failed", Repos := [],
            Error := "Failed to install app: " ++ e }
      | .ok _ =>
          { User := user, OrgName := org.Login, Status := "success",
            Repos := env.templateRepos.map (repoReportFor env org.Login) }

/-- One worker of the pool (`ProvisionOrgResources`): `for user := range
orgChan` over the units this worker dequeues, with the cancellation status
the worker observes at its i-th dequeue given by `cancelObs i`.  A worker
that dequeues a unit while cancellation is observed returns at once,
publishing nothing for it; otherwise it runs the full per-identity
procedure and publishes exactly one record. -/
def workerLoopC (env : ProvisionEnv) (cancelObs : Nat → Bool) :
    List String → Nat → List ProvisionResult
  | [], _ => []
  | user :: rest, i =>
      if cancelObs i then []
      else provisionOneUser env user :: workerLoopC env cancelObs rest (i + 1)

/-- The worker pool of `CreateLabEnvironment` (lab_service.go lines
226-259): the channel delivers each enqueued unit to exactly one worker, so
a run is an assignment of the units to the workers; the results channel
collects the concatenation of the workers' outputs (arrival order is
nondeterministic in Go and unconstrained by the counting claims). -/
def poolRun (env : ProvisionEnv) (cancelObsOf : Nat → Nat → Bool) :
    Nat → List (List String) → List ProvisionResult
  | _, [] => []
  | w, units :: rest =>
      workerLoopC env (cancelObsOf w) units 0 ++ poolRun env cancelObsOf (w + 1) rest

/-- The error string `context.Canceled` renders to. -/
def ctxCanceledMsg : String := "context canceled"

/-- Final check of the aggregation loop (lab_service.go lines 309-316):
after the results channel closes, return success (none) when the number of
records received equals the number of units dispatched, and `ctx.Err()`
otherwise. -/
def aggregateOutcome (expected resultCount : Nat) (ctxErr : Option String) :
    Option String :=
  if resultCount = expected then none else ctxErr

/-- Concrete provisioning environment for witnesses: bob's organization
creation fails, template labs/t2 fails, everything else succeeds under app
authentication. -/
def wpEnv : ProvisionEnv :=
  { pat := none
  , facilitators := ["carol"]
  , createOrg := fun u =>
      if u = "bob" then .error "name taken"
      else .ok { Login := createOrgName "2025-01-01" u }
  , installApp := fun _ => .ok ()
  , addOrgMember := fun _ _ => .ok ()
  , createRepoFromTemplate := fun _ rc =>
      if rc.Template = "labs/t2" then .error "boom"
      else .ok { HTMLURL := "https://x/" ++ rc.Template }
  , templateRepos := [{ Template := "labs/t1", IncludeAllBranches := false },
                      { Template := "labs/t2", IncludeAllBranches := true }] }

/-- Concrete provisioning environment for the C5 counterexample:
organization creation succeeds but app installation fails. -/
def c5Env : ProvisionEnv :=
  { pat := none
  , facilitators := []
  , createOrg := fun u => .ok { Login := createOrgName "2025-01-01" u }
  , installApp := fun _ => .error "install denied"
  , addOrgMember := fun _ _ => .ok ()
  , createRepoFromTemplate := fun _ _ => .ok {}
  , templateRepos := [] }

/-- Concrete response sequence for the C3 witness: the first attempt hits
the transient rate-limit signature, the second succeeds. -/
def w3resp : Nat → RepoResponse := fun n =>
  if n = 0 then
    { status := 422
    , errMessage := some "Resource not accessible by integration"
    , bodyText := "rate limited"
    , repoParse := none }
  else
    { status := 201
    , errMessage := none
    , bodyText := ""
    , repoParse := some { FullName := "org/t2", HTMLURL := "https://x/t2" } }

end GhasLabBuilder

namespace GhasLabBuilder

/-- C6: the claim states the created workspaces for lab id "2025-01-01" are
named `lab-2025-01-01-alice` and `lab-2025-01-01-bob`; the source prefixes
names with "ghas-labs-", so the names differ at this concrete input. -/
theorem c6_counterexample :
    createOrgName "2025-01-01" "alice" ≠ "lab-2025-01-01-alice" ∧
    createOrgName "2025-01-01" "alice" = "ghas-labs-2025-01-01-alice" := by
  constructor
  · decide
  · rfl

/-- C6 (amended): the workspace name is a deterministic pure function of the
lab identifier and the identity, identical between the create path
(orgs.go CreateOrg) and the delete path (lab_service.go
DestroyOrgResourcesWithReport); for identities alice and bob with lab id
2025-01-01 the names are ghas-labs-2025-01-01-alice and
ghas-labs-2025-01-01-bob. -/
theorem c6_org_naming (labDate user : String) :
    createOrgName labDate user = destroyOrgName labDate user ∧
    createOrgName "2025-01-01" "alice" = "ghas-labs-2025-01-01-alice" ∧
    createOrgName "2025-01-01" "bob" = "ghas-labs-2025-01-01-bob" := by
  refine ⟨rfl, rfl, rfl⟩

/-- C10: `ValidateAndFilterUsers` errors exactly when the input list is
non-empty and every supplied username fails validation; the empty input
succeeds immediately with empty lists; otherwise it succeeds with the valid
usernames in their original input order (the filter of the input list). -/
theorem c10_validate_users (check : String → UserCheck) (usernames : List String) :
    (usernames = [] →
      validateAndFilterUsers check usernames =
        .ok { ValidUsers := [], InvalidUsers := [] }) ∧
    ((∃ e, validateAndFilterUsers check usernames = .error e) ↔
      (usernames ≠ [] ∧ ∀ u ∈ usernames, checkValid (check u) = false)) ∧
    (∀ res, validateAndFilterUsers check usernames = .ok res →
      res.ValidUsers = usernames.filter (fun u => checkValid (check u))) := by
  refine ⟨?_, ?_, ?_⟩
  · intro h
    simp [validateAndFilterUsers, h]
  · by_cases hempty : usernames = []
    · simp [validateAndFilterUsers, hempty]
    · by_cases hval : usernames.filter (fun u => checkValid (check u)) = []
      · rw [List.filter_eq_nil_iff] at hval
        constructor
        · intro _
          refine ⟨hempty, ?_⟩
          intro u hu
          have := hval u hu
          simpa using this
        · intro _
          refine ⟨"no valid users found after validation", ?_⟩
          simp only [validateAndFilterUsers, if_neg hempty]
          rw [if_pos]
          rw [List.filter_eq_nil_iff]
          intro u hu
          have := hval u hu
          simpa using this
      · constructor
        · intro ⟨e, he⟩
          exfalso
          simp only [validateAndFilterUsers, if_neg hempty] at he
          rw [if_neg hval] at he
          exact Except.noConfusion he
        · intro ⟨_, hall⟩
          exfalso
          apply hval
          rw [List.filter_eq_nil_iff]
          intro u hu
          simp [hall u hu]
  · intro res hres
    by_cases hempty : usernames = []
    · simp only [validateAndFilterUsers, if_pos hempty] at hres
      cases hres
      simp [hempty]
    · simp only [validateAndFilterUsers, if_neg hempty] at hres
      by_cases hval : usernames.filter (fun u => checkValid (check u)) = []
      · rw [if_pos hval] at hres
        exact Except.noConfusion hres
      · rw [if_neg hval] at hres
        cases hres
        rfl

/-- C10 witness: concrete evaluation at a two-element input where one
username validates. -/
theorem c10_validate_users_witness :
    validateAndFilterUsers
      (fun u => if u = "alice" then UserCheck.okStatus else UserCheck.notFound)
      ["alice", "ghost"] =
      .ok { ValidUsers := ["alice"], InvalidUsers := ["ghost"] } := by
  have h := (c10_validate_users
    (fun u => if u = "alice" then UserCheck.okStatus else UserCheck.notFound)
    ["alice", "ghost"]).2.2
  have hok : validateAndFilterUsers
      (fun u => if u = "alice" then UserCheck.okStatus else UserCheck.notFound)
      ["alice", "ghost"] =
      .ok { ValidUsers := ["alice"], InvalidUsers := ["ghost"] } := by rfl
  have := h { ValidUsers := ["alice"], InvalidUsers := ["ghost"] } hok
  exact hok

/-- Reading back the scope key just written returns the new entry. -/
theorem lookupToken_storeToken (st : TokenCacheState) (key : String)
    (entry : CachedToken) :
    lookupToken (storeToken st key entry) key = some entry := by
  simp [lookupToken, storeToken, List.lookup]

/-- The exchange path always sets the ghost exchange flag. -/
theorem exchangeAndCache_didExchange (cfg : AuthConfig) (st : TokenCacheState)
    (now : Nat) : (exchangeAndCache cfg st now).didExchange = true := by
  cases hx : doExchange cfg <;> simp [exchangeAndCache, hx]

/-- With no PAT short-circuit and no live cache entry, the provider takes
the exchange path. -/
theorem authProvider_dead_entry (cfg : AuthConfig) (st : TokenCacheState)
    (now : Nat)
    (hpat : patInactive cfg)
    (hdead : ∀ cached, lookupToken st (cacheKey cfg) = some cached →
      cached.expires ≤ now) :
    authProvider cfg st now = exchangeAndCache cfg st now := by
  have happ : appAuth cfg st now = exchangeAndCache cfg st now := by
    unfold appAuth
    cases hl : lookupToken st (cacheKey cfg) with
    | none => rfl
    | some cached =>
        have hnlt : ¬ now < cached.expires := Nat.not_lt.mpr (hdead cached hl)
        simp [hnlt]
  rcases hpat with h | h <;> simp [authProvider, h, happ]

/-- C2: the token cache never returns a credential whose cached expiry has
passed.  Whenever the PAT short-circuit is inactive and the entry under the
requested scope key satisfies now >= expiresAt, the lookup takes the fresh
exchange path; on exchange failure the error is returned and the cache is
unchanged, and on exchange success the fresh token (not the expired entry)
is returned and the entry is replaced by the newly obtained token with
expiry now + 55 minutes. -/
theorem c2_no_expired_token (cfg : AuthConfig) (st : TokenCacheState) (now : Nat)
    (cached : CachedToken)
    (hpat : patInactive cfg)
    (hc : lookupToken st (cacheKey cfg) = some cached)
    (hexp : cached.expires ≤ now) :
    (authProvider cfg st now).didExchange = true ∧
    (∀ e, doExchange cfg = .error e →
      (authProvider cfg st now).value = .error e ∧
      (authProvider cfg st now).state = st) ∧
    (∀ tok, doExchange cfg = .ok tok →
      (authProvider cfg st now).value = .ok ("Bearer " ++ tok) ∧
      lookupToken (authProvider cfg st now).state (cacheKey cfg) =
        some { token := tok, expires := now + cacheTTL }) := by
  have hred : authProvider cfg st now = exchangeAndCache cfg st now := by
    apply authProvider_dead_entry cfg st now hpat
    intro c hl
    rw [hc] at hl
    cases hl
    exact hexp
  refine ⟨?_, ?_, ?_⟩
  · rw [hred]; exact exchangeAndCache_didExchange cfg st now
  · intro e hx
    rw [hred]
    simp [exchangeAndCache, hx]
  · intro tok hx
    rw [hred]
    simp [exchangeAndCache, hx, lookupToken_storeToken]

/-- C2 witness: expired entry at time 100 is replaced by the freshly
exchanged token. -/
theorem c2_no_expired_token_witness :
    lookupToken (authProvider wcCfg wcState 100).state (cacheKey wcCfg) =
      some { token := "tok-ghas-labs-2025-01-01-alice", expires := 100 + cacheTTL } :=
  ((c2_no_expired_token wcCfg wcState 100 { token := "old", expires := 100 }
      (Or.inl rfl) rfl (by decide)).2.2
    "tok-ghas-labs-2025-01-01-alice" rfl).2

/-- C7: when the credential exchange for a scope fails, the cache state is
unchanged (no entry written), the error is propagated to the caller, and a
subsequent call for the same scope (any later time, on the resulting state)
takes the exchange path again. -/
theorem c7_exchange_failure (cfg : AuthConfig) (st : TokenCacheState)
    (now later : Nat) (e : String)
    (hpat : patInactive cfg)
    (hdead : ∀ cached, lookupToken st (cacheKey cfg) = some cached →
      cached.expires ≤ now)
    (hx : doExchange cfg = .error e)
    (hle : now ≤ later) :
    (authProvider cfg st now).value = .error e ∧
    (authProvider cfg st now).state = st ∧
    (authProvider cfg st now).didExchange = true ∧
    (authProvider cfg ((authProvider cfg st now).state) later).didExchange = true := by
  have hred : authProvider cfg st now = exchangeAndCache cfg st now :=
    authProvider_dead_entry cfg st now hpat hdead
  have hval : (authProvider cfg st now).value = .error e := by
    rw [hred]; simp [exchangeAndCache, hx]
  have hst : (authProvider cfg st now).state = st := by
    rw [hred]; simp [exchangeAndCache, hx]
  refine ⟨hval, hst, ?_, ?_⟩
  · rw [hred]; exact exchangeAndCache_didExchange cfg st now
  · rw [hst]
    have hred2 : authProvider cfg st later = exchangeAndCache cfg st later := by
      apply authProvider_dead_entry cfg st later hpat
      intro c hl
      exact Nat.le_trans (hdead c hl) hle
    rw [hred2]
    exact exchangeAndCache_didExchange cfg st later

/-- C7 witness: a failing exchange on the empty cache propagates the error
and leaves the cache empty. -/
theorem c7_exchange_failure_witness :
    (authProvider wcFailCfg { tokens := [] } 0).value = .error "exchange down" ∧
    (authProvider wcFailCfg { tokens := [] } 0).state = { tokens := [] } :=
  have h := c7_exchange_failure wcFailCfg { tokens := [] } 0 5 "exchange down"
    (Or.inl rfl) (by intro c hcon; exact Option.noConfusion hcon) rfl (by decide)
  ⟨h.1, h.2.1⟩

/-- C9: a present, non-empty PAT is returned directly as a Bearer
credential for every lookup, with no error, no cache read or write (the
state is returned untouched and the result ignores it), and no exchange. -/
theorem c9_pat_bypass (cfg : AuthConfig) (st : TokenCacheState) (now : Nat)
    (t : String)
    (h1 : cfg.pat = some t) (h2 : t ≠ "") :
    (authProvider cfg st now).value = .ok ("Bearer " ++ t) ∧
    (authProvider cfg st now).state = st ∧
    (authProvider cfg st now).didExchange = false := by
  have hb : (t != "") = true := by simpa using h2
  simp [authProvider, h1, hb]

/-- C9 witness: concrete PAT configuration returns the Bearer PAT with no
exchange. -/
theorem c9_pat_bypass_witness :
    (authProvider wcPatCfg { tokens := [] } 7).value = .ok "Bearer pat-token" ∧
    (authProvider wcPatCfg { tokens := [] } 7).didExchange = false :=
  have h := c9_pat_bypass wcPatCfg { tokens := [] } 7 "pat-token" rfl (by decide)
  ⟨h.1, h.2.2⟩

/-- A worker that never observes cancellation publishes exactly one record
per dequeued unit, in order. -/
theorem workerLoopC_no_cancel (env : ProvisionEnv) (c : Nat → Bool)
    (hc : ∀ j, c j = false) :
    ∀ (units : List String) (i : Nat),
      workerLoopC env c units i = units.map (provisionOneUser env)
  | [], _ => rfl
  | u :: rest, i => by
      simp [workerLoopC, hc i, workerLoopC_no_cancel env c hc rest (i + 1)]

/-- A worker never publishes more records than it dequeues units. -/
theorem workerLoopC_length_le (env : ProvisionEnv) (c : Nat → Bool) :
    ∀ (units : List String) (i : Nat),
      (workerLoopC env c units i).length ≤ units.length
  | [], _ => Nat.le_refl 0
  | u :: rest, i => by
      by_cases h : c i = true
      · simp [workerLoopC, h]
      · rw [Bool.not_eq_true] at h
        simpa [workerLoopC, h] using
          Nat.succ_le_succ (workerLoopC_length_le env c rest (i + 1))

/-- Without cancellation the pool publishes one record per dispatched
unit. -/
theorem poolRun_no_cancel_length (env : ProvisionEnv) (cs : Nat → Nat → Bool)
    (hcs : ∀ w j, cs w j = false) :
    ∀ (w0 : Nat) (assignment : List (List String)),
      (poolRun env cs w0 assignment).length = assignment.flatten.length
  | _, [] => rfl
  | w0, units :: rest => by
      simp [poolRun, List.flatten_cons, workerLoopC_no_cancel env (cs w0) (hcs w0),
        poolRun_no_cancel_length env cs hcs (w0 + 1) rest]

/-- The pool never publishes more records than units dispatched. -/
theorem poolRun_length_le (env : ProvisionEnv) (cs : Nat → Nat → Bool) :
    ∀ (w0 : Nat) (assignment : List (List String)),
      (poolRun env cs w0 assignment).length ≤ assignment.flatten.length
  | _, [] => Nat.le_refl 0
  | w0, units :: rest => by
      simp only [poolRun, List.flatten_cons, List.length_append]
      exact Nat.add_le_add (workerLoopC_length_le env (cs w0) units 0)
        (poolRun_length_le env cs (w0 + 1) rest)

/-- A record-count shortfall can only come from an observed cancellation. -/
theorem poolRun_mismatch_cancel (env : ProvisionEnv) (cs : Nat → Nat → Bool)
    (w0 : Nat) (assignment : List (List String))
    (h : (poolRun env cs w0 assignment).length ≠ assignment.flatten.length) :
    ∃ w j, cs w j = true := by
  by_contra hno
  push_neg at hno
  apply h
  apply poolRun_no_cancel_length
  intro w j
  have := hno w j
  simpa using this

/-- C1: for any input set of K unique identities and any worker count
(absent cancellation), the pool publishes exactly K OutcomeRecords — the
channel delivers each unit to exactly one worker (the assignment joins to a
permutation of the identities), and each dequeued identity yields exactly
one record whatever the outcomes of organization creation, app
installation or repository creation are, since the environment is
universally quantified. -/
theorem c1_exactly_k_outcomes (env : ProvisionEnv) (users : List String)
    (assignment : List (List String))
    (hperm : List.Perm assignment.flatten users) :
    (poolRun env (fun _ _ => false) 0 assignment).length = users.length ∧
    (∀ (units : List String) (i : Nat),
      workerLoopC env (fun _ => false) units i =
        units.map (provisionOneUser env)) := by
  constructor
  · rw [poolRun_no_cancel_length env _ (fun _ _ => rfl) 0 assignment]
    exact hperm.length_eq
  · intro units i
    exact workerLoopC_no_cancel env _ (fun _ => rfl) units i

/-- C1 witness: two identities split over two workers, with bob's
organization creation failing, still yield exactly 2 records. -/
theorem c1_exactly_k_outcomes_witness :
    (poolRun wpEnv (fun _ _ => false) 0 [["alice"], ["bob"]]).length = 2 :=
  (c1_exactly_k_outcomes wpEnv ["alice", "bob"] [["alice"], ["bob"]]
    (by decide)).1

/-- C3: the repository-creation retry wrapper re-attempts if and only if
the failure matches the transient signature (non-created status whose
parsed message matches the rate-limit phrase at status 422), re-entering
attempting with the retry counter incremented by one; this holds at every
retry count n, so no maximum attempt count exists; the transient branch
always sleeps the fixed 60 seconds; and any failure with a different
signature terminates at once with the creation error for that very
response. -/
theorem c3_retry_policy (responses : Nat → RepoResponse) (n : Nat) :
    (retryStep responses (.attempting n) = .attempting (n + 1) ↔
      ((responses n).status ≠ 201 ∧ isTransientResponse (responses n) = true)) ∧
    (isTransientResponse (responses n) = true →
      retryStepDelay responses (.attempting n) = 60) ∧
    ((responses n).status ≠ 201 → isTransientResponse (responses n) = false →
      retryStep responses (.attempting n) = .failed (repoCreateErrorMsg (responses n))) := by
  have h422of : isTransientResponse (responses n) = true → (responses n).status = 422 := by
    intro htr
    simp only [isTransientResponse, Bool.and_eq_true, beq_iff_eq] at htr
    exact htr.1
  refine ⟨?_, ?_, ?_⟩
  · constructor
    · intro h
      by_cases h201 : (responses n).status = 201
      · exfalso
        cases hp : (responses n).repoParse <;> simp [retryStep, h201, hp] at h
      · by_cases htr : isTransientResponse (responses n) = true
        · exact ⟨h201, htr⟩
        · rw [Bool.not_eq_true] at htr
          simp [retryStep, h201, htr] at h
    · rintro ⟨h201, htr⟩
      simp [retryStep, h201, htr]
  · intro htr
    have h422 := h422of htr
    have h201 : ¬ (responses n).status = 201 := by simp [h422]
    simp [retryStepDelay, h201, htr]
  · intro h201 htr
    simp [retryStep, h201, htr]

/-- C3 witness: the concrete rate-limited first response makes the wrapper
re-enter attempting with retry count 1. -/
theorem c3_retry_policy_witness :
    retryStep w3resp (.attempting 0) = .attempting 1 :=
  (c3_retry_policy w3resp 0).1.mpr (by constructor <;> decide)

/-- C4: a worker that dequeues a unit while the cancellation signal is
observed stops at once, publishing no record for it and claiming nothing
further; a worker that dequeues a unit without observing cancellation
completes it fully (the per-identity procedure is run to the end) and
publishes exactly its one record before looping; and the pool as a whole
never publishes more than K records. -/
theorem c4_cancellation (env : ProvisionEnv) (c : Nat → Bool) (u : String)
    (rest : List String) (i : Nat) (cs : Nat → Nat → Bool)
    (assignment : List (List String)) (users : List String)
    (hperm : List.Perm assignment.flatten users) :
    (c i = true → workerLoopC env c (u :: rest) i = []) ∧
    (c i = false → workerLoopC env c (u :: rest) i =
      provisionOneUser env u :: workerLoopC env c rest (i + 1)) ∧
    (poolRun env cs 0 assignment).length ≤ users.length := by
  refine ⟨?_, ?_, ?_⟩
  · intro h; simp [workerLoopC, h]
  · intro h; simp [workerLoopC, h]
  · calc (poolRun env cs 0 assignment).length
        ≤ assignment.flatten.length := poolRun_length_le env cs 0 assignment
      _ = users.length := hperm.length_eq

/-- C4 witness: a worker dequeuing alice with cancellation already observed
publishes nothing. -/
theorem c4_cancellation_witness :
    workerLoopC wpEnv (fun _ => true) ["alice"] 0 = [] :=
  (c4_cancellation wpEnv (fun _ => true) "alice" [] 0 (fun _ _ => true)
    [["alice"]] ["alice"] (by decide)).1 rfl

/-- C5 counterexample: organization creation for alice succeeds, yet the
record's overall status is failed, because the app-installation step (run
under app authentication) failed — so success of organization creation
alone does not force an overall Success status. -/
theorem c5_counterexample :
    c5Env.createOrg "alice" =
      Except.ok { Login := "ghas-labs-2025-01-01-alice" } ∧
    (provisionOneUser c5Env "alice").Status = "failed" := by
  exact ⟨rfl, rfl⟩

/-- C5 (amended): for every identity whose organization creation succeeds
and whose app-installation step succeeds or is skipped (PAT present), the
record reports overall status success regardless of how many individual
template-repository creations fail: each template's outcome is recorded
independently (the sub-results are exactly the per-template reports, in
manifest order) and every template is attempted (one sub-result per
configured template).  Records are computed per identity from the
environment alone, so one identity's artifact failures cannot affect
another identity's record. -/
theorem c5_success_despite_repo_failures (env : ProvisionEnv) (user : String)
    (org : Organization)
    (horg : env.createOrg user = .ok org)
    (hinstall : env.pat.isSome = true ∨ env.installApp org.Login = .ok ()) :
    (provisionOneUser env user).Status = "success" ∧
    (provisionOneUser env user).Repos =
      env.templateRepos.map (repoReportFor env org.Login) ∧
    (provisionOneUser env user).Repos.length = env.templateRepos.length := by
  have hstep : provisionOneUser env user =
      { User := user, OrgName := org.Login, Status := "success",
        Repos := env.templateRepos.map (repoReportFor env org.Login) } := by
    unfold provisionOneUser
    rw [horg]
    rcases hinstall with h | h
    · simp [h]
    · cases hp : env.pat.isSome
      · simp [hp, h]
      · simp [hp]
  rw [hstep]
  exact ⟨rfl, rfl, by simp⟩

/-- C5 witness: alice's record is success with one sub-result per template
even though template labs/t2 failed. -/
theorem c5_success_despite_repo_failures_witness :
    (provisionOneUser wpEnv "alice").Status = "success" ∧
    (provisionOneUser wpEnv "alice").Repos.length = 2 :=
  have h := c5_success_despite_repo_failures wpEnv "alice"
    { Login := "ghas-labs-2025-01-01-alice" } rfl (Or.inr rfl)
  ⟨h.1, (h.2.2).trans rfl⟩

/-- C8: after the results channel closes, the aggregator compares the
number of records received with the number of identities dispatched: on
equality the run returns success (nil error), and on a mismatch it returns
`ctx.Err()`, which is non-nil because a shortfall can only arise from a
worker stopping on an observed cancellation (coherence: an observation is
true only if the run-scoped signal was set), and that run-level error is
produced by the aggregation loop itself, independent of any individual
record's error field. -/
theorem c8_record_count_check (env : ProvisionEnv) (users : List String)
    (assignment : List (List String)) (cs : Nat → Nat → Bool) (cancelled : Bool)
    (hperm : List.Perm assignment.flatten users)
    (hcoh : ∀ w j, cs w j = true → cancelled = true) :
    ((poolRun env cs 0 assignment).length = users.length →
      aggregateOutcome users.length (poolRun env cs 0 assignment).length
        (if cancelled then some ctxCanceledMsg else none) = none) ∧
    ((poolRun env cs 0 assignment).length ≠ users.length →
      aggregateOutcome users.length (poolRun env cs 0 assignment).length
        (if cancelled then some ctxCanceledMsg else none) = some ctxCanceledMsg ∧
      some ctxCanceledMsg ≠ (none : Option String)) := by
  constructor
  · intro h
    simp [aggregateOutcome, h]
  · intro h
    have hmis : (poolRun env cs 0 assignment).length ≠ assignment.flatten.length := by
      rw [hperm.length_eq]; exact h
    obtain ⟨w, j, hwj⟩ := poolRun_mismatch_cancel env cs 0 assignment hmis
    have hcanc := hcoh w j hwj
    subst hcanc
    exact ⟨by simp [aggregateOutcome, h], by simp⟩

/-- C8 witness: a complete two-identity run with no cancellation aggregates
to success. -/
theorem c8_record_count_check_witness :
    aggregateOutcome 2
      (poolRun wpEnv (fun _ _ => false) 0 [["alice"], ["bob"]]).length
      none = none :=
  (c8_record_count_check wpEnv ["alice", "bob"] [["alice"], ["bob"]]
    (fun _ _ => false) false (by decide) (fun _ _ h => Bool.noConfusion h)).1 rfl

end GhasLabBuilder
